import Mathlib

/-!
Shallow embedding of the video-sharing backend (src/main.py, src/schemas.py).

The document store (five Mongo collections behind `database.db`) is modelled
as Lean lists of structures; `find_one(filter)` is `List.find?`,
`count_documents` is `List.countP`, `insert_one` appends at the end (natural
order), `delete_one` removes the first match and `update_one` rewrites the
first match.  ObjectId strings are 24-character hex strings; `ObjectId(s)`
raises (HTTP 400 via `objid`) exactly when `s` is not such a string.
Timestamps (`datetime.utcnow()`) are modelled as naturals; generated ids
(`ObjectId()`) and timestamps are passed as explicit arguments.
HTTPException is `Except Err`; a handler returns the new store state next to
its response payload.
-/

namespace VideoBackend

/-- Error response: `HTTPException(status_code, detail)` as raised by the handlers. -/
structure Err where
  status : Nat
  detail : String
deriving Repr, DecidableEq

/-- A document of the `user` collection (main.py `register`, schemas.User). -/
structure UserDoc where
  oid : String
  username : String
  email : String
  password_hash : String
  avatar_url : Option String
  bio : Option String
  created_at : Nat
  updated_at : Nat
  subscriber_count : Nat
deriving Repr, DecidableEq

/-- A document of the `video` collection (main.py `upload_video`, schemas.Video). -/
structure VideoDoc where
  oid : String
  user_id : String
  title : String
  description : Option String
  tags : List String
  video_url : String
  thumbnail_url : Option String
  views_count : Nat
  likes_count : Nat
  created_at : Nat
  updated_at : Nat
deriving Repr, DecidableEq

/-- A document of the `comment` collection (main.py `add_comment`). -/
structure CommentDoc where
  oid : String
  video_id : String
  user_id : String
  text : String
  created_at : Nat
deriving Repr, DecidableEq

/-- A document of the `like` collection (main.py `like_video`, schemas.Like). -/
structure LikeDoc where
  oid : String
  video_id : String
  user_id : String
  value : Int
  created_at : Nat
deriving Repr, DecidableEq

/-- A document of the `subscription` collection (main.py `subscribe_channel`). -/
structure SubscriptionDoc where
  oid : String
  channel_id : String
  subscriber_id : String
  created_at : Nat
deriving Repr, DecidableEq

/-- The five collections of the document store. -/
structure DB where
  user : List UserDoc
  video : List VideoDoc
  comment : List CommentDoc
  like : List LikeDoc
  subscription : List SubscriptionDoc
deriving Repr, DecidableEq

/-- Hexadecimal digit, as accepted inside a BSON ObjectId string. -/
def isHexChar (c : Char) : Bool :=
  c.isDigit || ('a' ≤ c && c ≤ 'f') || ('A' ≤ c && c ≤ 'F')

/-- Validity of a BSON ObjectId string: `ObjectId(s)` succeeds exactly when `s` is 24 hex characters;
`objid` (main.py line 76) turns the failure into HTTP 400 "Invalid id format". -/
def validObjectId (s : String) : Bool :=
  s.length == 24 && s.data.all isHexChar

/-- Mongo `delete_one`: remove the first document matching the filter. -/
def deleteFirst (p : α → Bool) : List α → List α
  | [] => []
  | x :: xs => if p x then xs else x :: deleteFirst p xs

/-- Mongo `update_one`: rewrite the first document matching the filter. -/
def updateFirst (p : α → Bool) (f : α → α) : List α → List α
  | [] => []
  | x :: xs => if p x then f x :: xs else x :: updateFirst p f xs

/-- Filter `{"video_id": vid, "user_id": uid}` on the `like` collection. -/
def likeMatches (vid uid : String) (l : LikeDoc) : Bool :=
  l.video_id == vid && l.user_id == uid

/-- Filter `{"video_id": vid, "value": 1}` — the rows counted into `likes_count`. -/
def likeCounts (vid : String) (l : LikeDoc) : Bool :=
  l.video_id == vid && l.value == 1

/-- Filter `{"channel_id": cid, "subscriber_id": uid}` on `subscription`. -/
def subMatches (cid uid : String) (r : SubscriptionDoc) : Bool :=
  r.channel_id == cid && r.subscriber_id == uid

/-- Filter `{"channel_id": cid}` — the rows counted into `subscriber_count`. -/
def subCounts (cid : String) (r : SubscriptionDoc) : Bool :=
  r.channel_id == cid

/-- Response body of `POST /videos/{id}/like`. -/
structure LikeResp where
  video_id : String
  likes_count : Nat
deriving Repr, DecidableEq

/-- Response body of `POST /channels/{id}/subscribe`. -/
structure SubResp where
  channel_id : String
  subscriber_count : Nat
deriving Repr, DecidableEq

/-- Steps 2-5 of `setLike` (main.py lines 266-274): insert, toggle-delete,
or update the Like row for `(video_id, user_id)`. -/
def likeTable (like : List LikeDoc) (video_id : String) (value : Int)
    (user_id : String) (newId : String) (now : Nat) : List LikeDoc :=
  match like.find? (likeMatches video_id user_id) with
  | some existing =>
    if existing.value == value then
      deleteFirst (fun l => l.oid == existing.oid) like
    else
      updateFirst (fun l => l.oid == existing.oid)
        (fun l => { l with value := value }) like
  | none => like ++ [⟨newId, video_id, user_id, value, now⟩]

/-- Handler `like_video` (main.py lines 262-278), after the identity
dependency has produced `user_id`.  `newId`/`now` stand for `ObjectId()` and
`datetime.utcnow()` at the insertion point. -/
def like_video (s : DB) (video_id : String) (value : Int) (user_id : String)
    (newId : String) (now : Nat) : Except Err (DB × LikeResp) :=
  if !(validObjectId video_id) then .error ⟨400, "Invalid id format"⟩
  else if (s.video.find? (fun v => v.oid == video_id)).isNone then
    .error ⟨404, "Video not found"⟩
  else
    let like' := likeTable s.like video_id value user_id newId now
    let likes_count := like'.countP (likeCounts video_id)
    let video' := updateFirst (fun v => v.oid == video_id)
      (fun v => { v with likes_count := likes_count }) s.video
    .ok ({ s with like := like', video := video' }, ⟨video_id, likes_count⟩)

/-- Steps 3-5 of `setSubscription` (main.py lines 288-293): delete the
existing Subscription row (unsubscribe) or insert one (subscribe). -/
def subTable (subscription : List SubscriptionDoc) (channel_id : String)
    (user_id : String) (newId : String) (now : Nat) : List SubscriptionDoc :=
  match subscription.find? (subMatches channel_id user_id) with
  | some existing => deleteFirst (fun r => r.oid == existing.oid) subscription
  | none => subscription ++ [⟨newId, channel_id, user_id, now⟩]

/-- Handler `subscribe_channel` (main.py lines 282-296), after the identity
dependency has produced `user_id`. -/
def subscribe_channel (s : DB) (channel_id : String) (user_id : String)
    (newId : String) (now : Nat) : Except Err (DB × SubResp) :=
  if channel_id == user_id then .error ⟨400, "Cannot subscribe to yourself"⟩
  else if !(validObjectId channel_id) then .error ⟨400, "Invalid id format"⟩
  else if (s.user.find? (fun u => u.oid == channel_id)).isNone then
    .error ⟨404, "Channel not found"⟩
  else
    let sub' := subTable s.subscription channel_id user_id newId now
    let cnt := sub'.countP (subCounts channel_id)
    let user' := updateFirst (fun u => u.oid == channel_id)
      (fun u => { u with subscriber_count := cnt }) s.user
    .ok ({ s with subscription := sub', user := user' }, ⟨channel_id, cnt⟩)

/-- A `user` document serialized by `to_str_id` (main.py lines 63-73):
`_id` renamed to `id`, every other key kept.  `password_hash` is an `Option`
so that the `pop("password_hash")` done by register/login (and nowhere else)
is observable as `none`. -/
structure UserPayload where
  id : String
  username : String
  email : String
  password_hash : Option String
  avatar_url : Option String
  bio : Option String
  created_at : Nat
  updated_at : Nat
  subscriber_count : Nat
deriving Repr, DecidableEq

/-- Serializer `to_str_id` applied to a user document: keeps every key, including the
password hash. -/
def to_str_id_user (u : UserDoc) : UserPayload :=
  { id := u.oid, username := u.username, email := u.email,
    password_hash := some u.password_hash, avatar_url := u.avatar_url,
    bio := u.bio, created_at := u.created_at, updated_at := u.updated_at,
    subscriber_count := u.subscriber_count }

/-- The `doc.pop("password_hash", None)` done before serialization (register/login only). -/
def popPasswordHash (p : UserPayload) : UserPayload :=
  { p with password_hash := none }

/-- A `video` document serialized by `to_str_id`. -/
structure VideoPayload where
  id : String
  user_id : String
  title : String
  description : Option String
  tags : List String
  video_url : String
  thumbnail_url : Option String
  views_count : Nat
  likes_count : Nat
  created_at : Nat
  updated_at : Nat
deriving Repr, DecidableEq

/-- Serializer `to_str_id` applied to a video document. -/
def to_str_id_video (v : VideoDoc) : VideoPayload :=
  { id := v.oid, user_id := v.user_id, title := v.title,
    description := v.description, tags := v.tags, video_url := v.video_url,
    thumbnail_url := v.thumbnail_url, views_count := v.views_count,
    likes_count := v.likes_count, created_at := v.created_at,
    updated_at := v.updated_at }

/-- A `comment` document serialized by `to_str_id`. -/
structure CommentPayload where
  id : String
  video_id : String
  user_id : String
  text : String
  created_at : Nat
deriving Repr, DecidableEq

/-- Serializer `to_str_id` applied to a comment document. -/
def to_str_id_comment (c : CommentDoc) : CommentPayload :=
  { id := c.oid, video_id := c.video_id, user_id := c.user_id,
    text := c.text, created_at := c.created_at }

/-- Response of `GET /videos/{id}`: the video payload with the owner's
serialized user document embedded under the `channel` key. -/
structure VideoDetail where
  video : VideoPayload
  channel : Option UserPayload
deriving Repr, DecidableEq

/-- One element of the `GET /videos/{id}/comments` response: the comment
payload with the author's serialized user document under the `user` key. -/
structure CommentItem where
  comment : CommentPayload
  user : Option UserPayload
deriving Repr, DecidableEq

/-- Response of `GET /channels/{id}`: `to_str_id(user)` with
`subscriber_count` overwritten by a fresh count and a `videos` key added. -/
structure ChannelPayload where
  profile : UserPayload
  videos : List VideoPayload
deriving Repr, DecidableEq

/-- Insert an element into a list kept in descending `key` order. -/
def insertByKeyDesc (key : α → Nat) (a : α) : List α → List α
  | [] => [a]
  | b :: l => if key b ≤ key a then a :: b :: l else b :: insertByKeyDesc key a l

/-- Mongo `.sort(key, -1)`: order by `key` descending (insertion sort). -/
def sortByKeyDesc (key : α → Nat) (l : List α) : List α :=
  l.foldr (insertByKeyDesc key) []

/-- Dependency `get_current_user_id` (main.py lines 145-151): 401 when the
`X-User-Id` header is missing or empty (falsy), 400 from `objid` when it is
not a well-formed ObjectId string, 401 when no user has that id. -/
def get_current_user_id (s : DB) (x_user_id : Option String) : Except Err String :=
  match x_user_id with
  | none => .error ⟨401, "Missing X-User-Id header"⟩
  | some uid =>
    if uid == "" then .error ⟨401, "Missing X-User-Id header"⟩
    else if !(validObjectId uid) then .error ⟨400, "Invalid id format"⟩
    else if (s.user.find? (fun u => u.oid == uid)).isNone then
      .error ⟨401, "Invalid user id"⟩
    else .ok uid

/-- Handler `login` (main.py lines 130-139).  Password verification is the
vetted external `pwd_context.verify`, passed in as `verify`. -/
def login (verify : String → String → Bool) (s : DB) (email password : String) :
    Except Err UserPayload :=
  match s.user.find? (fun u => u.email == email) with
  | none => .error ⟨400, "Invalid credentials"⟩
  | some u =>
    if !(verify password u.password_hash) then .error ⟨400, "Invalid credentials"⟩
    else .ok (popPasswordHash (to_str_id_user u))

/-- Handler `list_videos` (main.py lines 203-207): all videos, newest first,
bounded by `limit` (FastAPI default 20). -/
def list_videos (s : DB) (limit : Nat := 20) : List VideoPayload :=
  ((sortByKeyDesc (fun v : VideoDoc => v.created_at) s.video).take limit).map
    to_str_id_video

/-- Handler `feed` (main.py lines 313-317): identical query to `list_videos`
("Trending = most recent for MVP"). -/
def feed (s : DB) (limit : Nat := 20) : List VideoPayload :=
  ((sortByKeyDesc (fun v : VideoDoc => v.created_at) s.video).take limit).map
    to_str_id_video

/-- Handler `get_video` (main.py lines 210-222): 404 when absent, otherwise
increment `views_count`, refresh `updated_at`, re-fetch, and embed the owner
via `to_str_id` (password hash included — `to_str_id` never removes it) as
`channel`, or `null` when the owner is falsy/absent.  Errors after the
increment leave the increment in place, so the state is returned next to the
result. -/
def get_video (s : DB) (video_id : String) (now : Nat) : DB × Except Err VideoDetail :=
  if !(validObjectId video_id) then (s, .error ⟨400, "Invalid id format"⟩)
  else
    match s.video.find? (fun v => v.oid == video_id) with
    | none => (s, .error ⟨404, "Video not found"⟩)
    | some v =>
      let video' := updateFirst (fun w => w.oid == v.oid)
        (fun w => { w with views_count := w.views_count + 1, updated_at := now })
        s.video
      let s' : DB := { s with video := video' }
      match video'.find? (fun w => w.oid == v.oid) with
      | none => (s', .error ⟨500, "Internal Server Error"⟩)
      | some v2 =>
        if v2.user_id == "" then (s', .ok ⟨to_str_id_video v2, none⟩)
        else if !(validObjectId v2.user_id) then (s', .error ⟨400, "Invalid id format"⟩)
        else
          (s', .ok ⟨to_str_id_video v2,
            (s.user.find? (fun u => u.oid == v2.user_id)).map to_str_id_user⟩)

/-- The author join done for each comment in `list_comments` (main.py lines
249-253): the full serialized user document under `user`, `null` when the
author id is falsy or unknown. -/
def commentJoin (s : DB) (c : CommentDoc) : Except Err CommentItem :=
  if c.user_id == "" then .ok ⟨to_str_id_comment c, none⟩
  else if !(validObjectId c.user_id) then .error ⟨400, "Invalid id format"⟩
  else .ok ⟨to_str_id_comment c,
    (s.user.find? (fun u => u.oid == c.user_id)).map to_str_id_user⟩

/-- Handler `list_comments` (main.py lines 245-254): the video's comments,
newest first, bounded by `limit` (default 50), each joined with its author. -/
def list_comments (s : DB) (video_id : String) (limit : Nat := 50) :
    Except Err (List CommentItem) :=
  ((sortByKeyDesc (fun c : CommentDoc => c.created_at)
      (s.comment.filter (fun c => c.video_id == video_id))).take limit).mapM
    (commentJoin s)

/-- Handler `get_channel` (main.py lines 299-309): `to_str_id(user)` (the
password hash survives serialization) with a freshly counted
`subscriber_count` written over the stored field and the channel's videos,
newest first, attached. -/
def get_channel (s : DB) (channel_id : String) : Except Err ChannelPayload :=
  if !(validObjectId channel_id) then .error ⟨400, "Invalid id format"⟩
  else
    match s.user.find? (fun u => u.oid == channel_id) with
    | none => .error ⟨404, "Channel not found"⟩
    | some u =>
      let cnt := s.subscription.countP (subCounts channel_id)
      .ok ⟨{ to_str_id_user u with subscriber_count := cnt },
        (sortByKeyDesc (fun v : VideoDoc => v.created_at)
          (s.video.filter (fun v => v.user_id == channel_id))).map to_str_id_video⟩

/-- Handler `add_comment` (main.py lines 230-242), after the identity
dependency has produced `user_id`. -/
def add_comment (s : DB) (video_id : String) (text : String) (user_id : String)
    (newId : String) (now : Nat) : Except Err (DB × CommentPayload) :=
  if !(validObjectId video_id) then .error ⟨400, "Invalid id format"⟩
  else if (s.video.find? (fun v => v.oid == video_id)).isNone then
    .error ⟨404, "Video not found"⟩
  else
    let c : CommentDoc := ⟨newId, video_id, user_id, text, now⟩
    .ok ({ s with comment := s.comment ++ [c] }, to_str_id_comment c)

/-- Route `POST /videos/{id}/like` as dispatched by FastAPI: the `get_current_user_id`
dependency resolves before the handler body runs, so an authentication
failure leaves the store untouched. -/
def like_video_route (s : DB) (video_id : String) (value : Int)
    (header : Option String) (newId : String) (now : Nat) : DB × Except Err LikeResp :=
  match get_current_user_id s header with
  | .error e => (s, .error e)
  | .ok uid =>
    match like_video s video_id value uid newId now with
    | .error e => (s, .error e)
    | .ok (s', r) => (s', .ok r)

/-- Route `POST /videos/{id}/comments` as dispatched by FastAPI. -/
def add_comment_route (s : DB) (video_id : String) (text : String)
    (header : Option String) (newId : String) (now : Nat) :
    DB × Except Err CommentPayload :=
  match get_current_user_id s header with
  | .error e => (s, .error e)
  | .ok uid =>
    match add_comment s video_id text uid newId now with
    | .error e => (s, .error e)
    | .ok (s', r) => (s', .ok r)

/-- Route `POST /channels/{id}/subscribe` as dispatched by FastAPI. -/
def subscribe_channel_route (s : DB) (channel_id : String)
    (header : Option String) (newId : String) (now : Nat) : DB × Except Err SubResp :=
  match get_current_user_id s header with
  | .error e => (s, .error e)
  | .ok uid =>
    match subscribe_channel s channel_id uid newId now with
    | .error e => (s, .error e)
    | .ok (s', r) => (s', .ok r)

theorem deleteFirst_cons_pos {p : α → Bool} {x : α} (l : List α) (hx : p x = true) :
    deleteFirst p (x :: l) = l := by
  simp [deleteFirst, hx]

theorem updateFirst_cons_pos {p : α → Bool} {f : α → α} {x : α} (l : List α)
    (hx : p x = true) : updateFirst p f (x :: l) = f x :: l := by
  simp [updateFirst, hx]

theorem deleteFirst_append_left {p : α → Bool} {l₁ : List α} (l₂ : List α)
    (h : ∀ x ∈ l₁, p x = false) :
    deleteFirst p (l₁ ++ l₂) = l₁ ++ deleteFirst p l₂ := by
  induction l₁ with
  | nil => rfl
  | cons x xs ih =>
    have hx : p x = false := h x (List.mem_cons_self x xs)
    simp only [List.cons_append, deleteFirst, hx, Bool.false_eq_true, if_false,
      List.cons.injEq, true_and]
    exact ih fun y hy => h y (List.mem_cons_of_mem x hy)

theorem updateFirst_append_left {p : α → Bool} {f : α → α} {l₁ : List α} (l₂ : List α)
    (h : ∀ x ∈ l₁, p x = false) :
    updateFirst p f (l₁ ++ l₂) = l₁ ++ updateFirst p f l₂ := by
  induction l₁ with
  | nil => rfl
  | cons x xs ih =>
    have hx : p x = false := h x (List.mem_cons_self x xs)
    simp only [List.cons_append, updateFirst, hx, Bool.false_eq_true, if_false,
      List.cons.injEq, true_and]
    exact ih fun y hy => h y (List.mem_cons_of_mem x hy)

theorem find?_updateFirst_pres (p : α → Bool) (f : α → α)
    (hf : ∀ x, p x = true → p (f x) = true) (l : List α) :
    (updateFirst p f l).find? p = (l.find? p).map f := by
  induction l with
  | nil => rfl
  | cons x xs ih =>
    by_cases hx : p x = true
    · rw [updateFirst_cons_pos xs hx, List.find?_cons_of_pos xs hx,
        List.find?_cons_of_pos xs (hf x hx)]
      rfl
    · have hx' : p x = false := by
        cases h : p x with
        | false => rfl
        | true => exact absurd h hx
      rw [show updateFirst p f (x :: xs) = x :: updateFirst p f xs by
        simp [updateFirst, hx'],
        List.find?_cons_of_neg _ hx, List.find?_cons_of_neg _ hx, ih]

theorem map_nodup_left_ne {g : α → β} {l₁ l₂ : List α} {r : α}
    (h : ((l₁ ++ r :: l₂).map g).Nodup) (x : α) (hx : x ∈ l₁) : g x ≠ g r := by
  rw [List.map_append, List.nodup_append] at h
  intro he
  exact h.2.2 (List.mem_map_of_mem g hx)
    (by rw [List.map_cons, he]; exact List.mem_cons_self _ _)

theorem find?_decomp {p : α → Bool} {l : List α} {r : α}
    (h : l.find? p = some r) :
    p r = true ∧ ∃ l₁ l₂, l = l₁ ++ r :: l₂ ∧ ∀ x ∈ l₁, p x = false := by
  obtain ⟨hp, l₁, l₂, hl, hclean⟩ := List.find?_eq_some.mp h
  exact ⟨hp, l₁, l₂, hl, fun x hx => by
    have := hclean x hx
    cases hpx : p x with
    | false => rfl
    | true => rw [hpx] at this; exact absurd this (by simp)⟩

theorem find?_append_clean {p : α → Bool} {l₁ : List α} (l₂ : List α)
    (h : ∀ x ∈ l₁, p x = false) :
    (l₁ ++ l₂).find? p = l₂.find? p := by
  rw [List.find?_append, List.find?_eq_none.mpr (fun x hx => by simp [h x hx])]
  rfl

instance {ε α : Type} [DecidableEq ε] [DecidableEq α] : DecidableEq (Except ε α) :=
  fun a b =>
  match a, b with
  | .error e, .error e' =>
    if h : e = e' then .isTrue (congrArg Except.error h)
    else .isFalse (fun hc => h (Except.error.inj hc))
  | .ok x, .ok y =>
    if h : x = y then .isTrue (congrArg Except.ok h)
    else .isFalse (fun hc => h (Except.ok.inj hc))
  | .error _, .ok _ => .isFalse Except.noConfusion
  | .ok _, .error _ => .isFalse Except.noConfusion

/-! Concrete fixtures used to instantiate the theorems. -/

def uidA : String := "aaaaaaaaaaaaaaaaaaaaaaaa"

def uidB : String := "bbbbbbbbbbbbbbbbbbbbbbbb"

def vidC : String := "cccccccccccccccccccccccc"

def oidD : String := "dddddddddddddddddddddddd"

def oidE : String := "eeeeeeeeeeeeeeeeeeeeeeee"

def oidF : String := "ffffffffffffffffffffffff"

def userA : UserDoc :=
  ⟨uidA, "alice", "alice@example.com", "bcrypt-hash-a", none, none, 0, 0, 0⟩

def userB : UserDoc :=
  ⟨uidB, "bob", "bob@example.com", "bcrypt-hash-b", none, none, 1, 1, 0⟩

def videoC : VideoDoc :=
  ⟨vidC, uidA, "first video", none, [], "/static/videos/c.mp4", none, 0, 0, 2, 2⟩

/-- Two registered users, one video owned by alice, nothing else. -/
def baseDB : DB := ⟨[userA, userB], [videoC], [], [], []⟩

/-- C4: after every successful `setLike` the returned `likes_count` equals
the number of Like rows for that video with value 1 counted fresh over the
final table, and the same number is persisted onto the video document. -/
theorem like_video_fresh_recount (s : DB) (video_id : String) (value : Int)
    (user_id newId : String) (now : Nat) (s' : DB) (r : LikeResp)
    (h : like_video s video_id value user_id newId now = .ok (s', r)) :
    r.video_id = video_id ∧
    r.likes_count = s'.like.countP (likeCounts video_id) ∧
    ∃ v', s'.video.find? (fun v => v.oid == video_id) = some v' ∧
      v'.likes_count = r.likes_count := by
  rw [like_video] at h
  split at h
  · exact Except.noConfusion h
  split at h
  · exact Except.noConfusion h
  rename_i hneg hvid
  simp only [Except.ok.injEq, Prod.mk.injEq] at h
  obtain ⟨hs, hr⟩ := h
  subst hs
  subst hr
  refine ⟨rfl, rfl, ?_⟩
  obtain ⟨v, hv⟩ : ∃ v, s.video.find? (fun v => v.oid == video_id) = some v := by
    cases hfind : s.video.find? (fun v => v.oid == video_id) with
    | none => rw [hfind] at hvid; exact absurd rfl hvid
    | some v => exact ⟨v, rfl⟩
  have hpres := find?_updateFirst_pres (fun v : VideoDoc => v.oid == video_id)
    (fun v => { v with likes_count := List.countP (likeCounts video_id) (likeTable s.like video_id value user_id newId now) })
    (fun x hx => hx) s.video
  dsimp only
  rw [hpres, hv]
  exact ⟨_, rfl, rfl⟩

/-- The store after bob likes alice's fresh video. -/
def likedDB : DB :=
  { baseDB with
    like := [⟨oidD, vidC, uidB, 1, 3⟩],
    video := [{ videoC with likes_count := 1 }] }

/-- C4 witness: liking alice's fresh video as bob persists and returns a
fresh count of 1. -/
theorem like_video_fresh_recount_witness :
    (⟨vidC, 1⟩ : LikeResp).video_id = vidC ∧
    (⟨vidC, 1⟩ : LikeResp).likes_count = likedDB.like.countP (likeCounts vidC) :=
  let h := like_video_fresh_recount baseDB vidC 1 uidB oidD 3 likedDB
    ⟨vidC, 1⟩ (by decide)
  ⟨h.1, h.2.1⟩

/-- The count of positive Like rows for `vid` after inserting a fresh row
with value `w`: the old count, plus one exactly when `w` is 1. -/
def freshLikeCount (s : DB) (vid : String) (w : Int) : Nat :=
  s.like.countP (likeCounts vid) + if w = 1 then 1 else 0

/-- C10: the like endpoint accepts any integer value: with no existing Like
row for the pair, `setLike` appends a row carrying exactly that value, and
the recomputed `likes_count` counts it only when the value is 1. -/
theorem like_video_any_value (s : DB) (vid uid newId : String) (w : Int) (now : Nat)
    (hvalid : validObjectId vid = true)
    (hvideo : (s.video.find? (fun v => v.oid == vid)).isNone = false)
    (hnone : s.like.find? (likeMatches vid uid) = none) :
    like_video s vid w uid newId now =
      .ok ({ s with
              like := s.like ++ [⟨newId, vid, uid, w, now⟩],
              video := updateFirst (fun v => v.oid == vid)
                (fun v => { v with likes_count := freshLikeCount s vid w }) s.video },
        ⟨vid, freshLikeCount s vid w⟩) := by
  rw [like_video, likeTable, hnone]
  simp only [hvalid, hvideo, Bool.not_true, Bool.false_eq_true, if_false,
    List.countP_append, List.countP_cons, List.countP_nil, likeCounts, freshLikeCount]
  by_cases hw : w = 1
  · subst hw
    simp
  · simp [hw, beq_eq_false_iff_ne.mpr hw]

/-- C10 witness: liking with the out-of-range value 5 stores the row with
value 5 and it does not count into `likes_count`. -/
theorem like_video_any_value_witness :
    like_video baseDB vidC 5 uidB oidD 3 =
      .ok ({ baseDB with
              like := baseDB.like ++ [⟨oidD, vidC, uidB, 5, 3⟩],
              video := updateFirst (fun v => v.oid == vidC)
                (fun v => { v with likes_count := freshLikeCount baseDB vidC 5 })
                baseDB.video },
        ⟨vidC, freshLikeCount baseDB vidC 5⟩) :=
  like_video_any_value baseDB vidC uidB oidD 5 3 (by decide) (by decide) (by decide)

theorem bool_eq_false {b : Bool} (h : ¬ b = true) : b = false := by
  cases b
  · rfl
  · exact absurd rfl h

/-- C7: the self-subscribe guard fires first: for an authenticated user, a
subscribe call naming their own id is rejected with 400 and the store is
returned unchanged, whatever the subscription state. -/
theorem subscribe_self_rejected (s : DB) (u : String) (header : Option String)
    (newId : String) (now : Nat)
    (hauth : get_current_user_id s header = .ok u) :
    subscribe_channel_route s u header newId now =
      (s, .error ⟨400, "Cannot subscribe to yourself"⟩) := by
  rw [subscribe_channel_route, hauth]
  simp [subscribe_channel]

/-- C7 witness: alice subscribing to her own channel is rejected with 400
and the store stays `baseDB`. -/
theorem subscribe_self_rejected_witness :
    subscribe_channel_route baseDB uidA (some uidA) oidD 3 =
      (baseDB, .error ⟨400, "Cannot subscribe to yourself"⟩) :=
  subscribe_self_rejected baseDB uidA (some uidA) oidD 3 (by decide)

/-- C8: the login error for an unknown email and the login error for a known
email with a failing password are the same response (status 400, detail
"Invalid credentials"). -/
theorem login_errors_indistinguishable (verify : String → String → Bool) (s : DB)
    (e1 p1 e2 p2 : String) (u : UserDoc)
    (h1 : s.user.find? (fun x => x.email == e1) = none)
    (h2 : s.user.find? (fun x => x.email == e2) = some u)
    (hv : verify p2 u.password_hash = false) :
    login verify s e1 p1 = .error ⟨400, "Invalid credentials"⟩ ∧
    login verify s e2 p2 = .error ⟨400, "Invalid credentials"⟩ ∧
    login verify s e1 p1 = login verify s e2 p2 := by
  have ha : login verify s e1 p1 = .error ⟨400, "Invalid credentials"⟩ := by
    rw [login, h1]
  have hb : login verify s e2 p2 = .error ⟨400, "Invalid credentials"⟩ := by
    rw [login, h2]
    simp [hv]
  exact ⟨ha, hb, ha.trans hb.symm⟩

/-- A password checker that rejects everything, standing in for
`pwd_context.verify` on a wrong password. -/
def rejectAll : String → String → Bool := fun _ _ => false

/-- C8 witness: unknown email `carol@example.com` and known email
`alice@example.com` with a failing password produce the same 400 error. -/
theorem login_errors_indistinguishable_witness :
    login rejectAll baseDB "carol@example.com" "pw" = .error ⟨400, "Invalid credentials"⟩ ∧
    login rejectAll baseDB "alice@example.com" "pw" = .error ⟨400, "Invalid credentials"⟩ ∧
    login rejectAll baseDB "carol@example.com" "pw" = login rejectAll baseDB "alice@example.com" "pw" :=
  login_errors_indistinguishable rejectAll baseDB "carol@example.com" "pw"
    "alice@example.com" "pw" userA (by decide) (by decide) (by decide)

theorem mem_insertByKeyDesc (key : α → Nat) (a y : α) (l : List α) :
    y ∈ insertByKeyDesc key a l ↔ y = a ∨ y ∈ l := by
  induction l with
  | nil => simp [insertByKeyDesc]
  | cons b l ih =>
    rw [insertByKeyDesc]
    by_cases hba : key b ≤ key a
    · rw [if_pos hba]
      simp [List.mem_cons]
    · rw [if_neg hba]
      simp only [List.mem_cons, ih]
      tauto

theorem insertByKeyDesc_pairwise (key : α → Nat) (a : α) (l : List α)
    (h : List.Pairwise (fun x y => key y ≤ key x) l) :
    List.Pairwise (fun x y => key y ≤ key x) (insertByKeyDesc key a l) := by
  induction l with
  | nil => simp [insertByKeyDesc]
  | cons b l ih =>
    obtain ⟨hb, hl⟩ := List.pairwise_cons.mp h
    rw [insertByKeyDesc]
    by_cases hba : key b ≤ key a
    · rw [if_pos hba]
      refine List.pairwise_cons.mpr ⟨?_, h⟩
      intro y hy
      rcases List.mem_cons.mp hy with rfl | hyl
      · exact hba
      · exact le_trans (hb y hyl) hba
    · rw [if_neg hba]
      refine List.pairwise_cons.mpr ⟨?_, ih hl⟩
      intro y hy
      rcases (mem_insertByKeyDesc key a y l).mp hy with rfl | hyl
      · exact le_of_not_le hba
      · exact hb y hyl

theorem sortByKeyDesc_sorted (key : α → Nat) (l : List α) :
    List.Pairwise (fun a b => key b ≤ key a) (sortByKeyDesc key l) := by
  induction l with
  | nil => exact List.Pairwise.nil
  | cons a l ih => exact insertByKeyDesc_pairwise key a _ ih

/-- C9: both `GET /videos` and `GET /feed` return at most `limit` videos,
in descending `created_at` order, and the two endpoints run the identical
query. -/
theorem videos_feed_bounded_sorted (s : DB) (limit : Nat) :
    (list_videos s limit).length ≤ limit ∧
    (feed s limit).length ≤ limit ∧
    List.Pairwise (fun a b => b.created_at ≤ a.created_at) (list_videos s limit) ∧
    List.Pairwise (fun a b => b.created_at ≤ a.created_at) (feed s limit) ∧
    feed s limit = list_videos s limit := by
  have hlen : (list_videos s limit).length ≤ limit := by
    rw [list_videos, List.length_map, List.length_take]
    exact min_le_left _ _
  have hsorted : List.Pairwise
      (fun (a b : VideoPayload) => b.created_at ≤ a.created_at) (list_videos s limit) := by
    rw [list_videos]
    refine List.pairwise_map.mpr ?_
    refine List.Pairwise.imp (fun hab => hab) ?_
    exact List.Pairwise.sublist (List.take_sublist _ _)
      (sortByKeyDesc_sorted (fun v : VideoDoc => v.created_at) s.video)
  exact ⟨hlen, hlen, hsorted, hsorted, rfl⟩

/-- C2 counterexample: a malformed user-id string in the identity header is
rejected with status 400 ("Invalid id format" from `objid`), not 401, even
though it resolves to no user — refuting the claim that every non-resolving
header value yields 401. -/
theorem auth_malformed_id_not_401 :
    ¬ (∀ (s : DB) (u : String) (e : Err),
        (∀ x ∈ s.user, (x.oid == u) = false) →
        get_current_user_id s (some u) = .error e → e.status = 401) := by
  intro h
  have h400 := h baseDB "not-a-valid-objectid" ⟨400, "Invalid id format"⟩
    (by decide) (by decide)
  exact absurd h400 (by decide)

/-- C2 amended: a missing or empty identity header is rejected 401
("Missing X-User-Id header"); a well-formed ObjectId string naming no user
is rejected 401 ("Invalid user id"); a malformed id string is rejected 400
("Invalid id format"); and whenever the identity dependency fails, each
modelled mutating route returns its error with the store unchanged. -/
theorem auth_rejection_amended (s : DB) (header : Option String) :
    (header = none ∨ header = some "" →
      get_current_user_id s header = .error ⟨401, "Missing X-User-Id header"⟩) ∧
    (∀ u, header = some u → u ≠ "" → validObjectId u = false →
      get_current_user_id s header = .error ⟨400, "Invalid id format"⟩) ∧
    (∀ u, header = some u → u ≠ "" → validObjectId u = true →
      s.user.find? (fun x => x.oid == u) = none →
      get_current_user_id s header = .error ⟨401, "Invalid user id"⟩) ∧
    (∀ (e : Err) (vid : String) (value : Int) (text cid newId : String) (now : Nat),
      get_current_user_id s header = .error e →
      like_video_route s vid value header newId now = (s, .error e) ∧
      add_comment_route s vid text header newId now = (s, .error e) ∧
      subscribe_channel_route s cid header newId now = (s, .error e)) := by
  refine ⟨?_, ?_, ?_, ?_⟩
  · rintro (rfl | rfl)
    · rfl
    · rfl
  · intro u hu hne hbad
    subst hu
    rw [get_current_user_id]
    simp [beq_eq_false_iff_ne.mpr hne, hbad]
  · intro u hu hne hok hnone
    subst hu
    rw [get_current_user_id]
    simp [beq_eq_false_iff_ne.mpr hne, hok, hnone]
  · intro e vid value text cid newId now he
    refine ⟨?_, ?_, ?_⟩
    · rw [like_video_route, he]
    · rw [add_comment_route, he]
    · rw [subscribe_channel_route, he]

/-- C2 amended witness: the malformed header value "zz" is rejected with 400
and the like route leaves the store untouched. -/
theorem auth_rejection_amended_witness :
    get_current_user_id baseDB (some "zz") = .error ⟨400, "Invalid id format"⟩ ∧
    like_video_route baseDB vidC 1 (some "zz") oidD 3 =
      (baseDB, .error ⟨400, "Invalid id format"⟩) := by
  have h := auth_rejection_amended baseDB (some "zz")
  have h2 := h.2.1 "zz" rfl (by decide) (by decide)
  exact ⟨h2, (h.2.2.2 ⟨400, "Invalid id format"⟩ vidC 1 "t" uidA oidD 3 h2).1⟩

theorem subscribe_channel_ok (s : DB) (ch uid nid : String) (now : Nat)
    (hne : (ch == uid) = false) (hvalid : validObjectId ch = true)
    (hch : (s.user.find? (fun x => x.oid == ch)).isNone = false) :
    subscribe_channel s ch uid nid now =
      .ok ({ s with
              subscription := subTable s.subscription ch uid nid now,
              user := updateFirst (fun x => x.oid == ch) (fun x => { x with subscriber_count := (subTable s.subscription ch uid nid now).countP (subCounts ch) }) s.user },
        ⟨ch, (subTable s.subscription ch uid nid now).countP (subCounts ch)⟩) := by
  rw [subscribe_channel]
  simp [hne, hvalid, hch]

theorem like_video_ok (s : DB) (vid : String) (w : Int) (uid nid : String) (now : Nat)
    (hvalid : validObjectId vid = true)
    (hvid : (s.video.find? (fun v => v.oid == vid)).isNone = false) :
    like_video s vid w uid nid now =
      .ok ({ s with
              like := likeTable s.like vid w uid nid now,
              video := updateFirst (fun v => v.oid == vid) (fun v => { v with likes_count := (likeTable s.like vid w uid nid now).countP (likeCounts vid) }) s.video },
        ⟨vid, (likeTable s.like vid w uid nid now).countP (likeCounts vid)⟩) := by
  rw [like_video]
  simp [hvalid, hvid]

theorem subTable_insert {subs : List SubscriptionDoc} {ch uid : String}
    (nid : String) (now : Nat) (h : subs.find? (subMatches ch uid) = none) :
    subTable subs ch uid nid now = subs ++ [⟨nid, ch, uid, now⟩] := by
  rw [subTable, h]

theorem subTable_delete_appended {subs : List SubscriptionDoc} {ch uid : String}
    (nid : String) (now : Nat) (nid2 : String) (now2 : Nat)
    (hclean : ∀ x ∈ subs, subMatches ch uid x = false)
    (hfresh : ∀ x ∈ subs, (x.oid == nid) = false) :
    subTable (subs ++ [⟨nid, ch, uid, now⟩]) ch uid nid2 now2 = subs := by
  rw [subTable, find?_append_clean _ hclean,
    List.find?_cons_of_pos _ (by simp [subMatches])]
  dsimp only
  rw [deleteFirst_append_left _ hfresh, deleteFirst_cons_pos _ (by simp)]
  exact List.append_nil subs

theorem likeTable_insert {like : List LikeDoc} {vid uid : String} (w : Int)
    (nid : String) (now : Nat) (h : like.find? (likeMatches vid uid) = none) :
    likeTable like vid w uid nid now = like ++ [⟨nid, vid, uid, w, now⟩] := by
  rw [likeTable, h]

theorem likeTable_delete_appended {like : List LikeDoc} {vid uid : String}
    (w : Int) (nid : String) (now : Nat) (nid2 : String) (now2 : Nat)
    (hclean : ∀ x ∈ like, likeMatches vid uid x = false)
    (hfresh : ∀ x ∈ like, (x.oid == nid) = false) :
    likeTable (like ++ [⟨nid, vid, uid, w, now⟩]) vid w uid nid2 now2 = like := by
  rw [likeTable, find?_append_clean _ hclean,
    List.find?_cons_of_pos _ (by simp [likeMatches])]
  dsimp only
  rw [if_pos (beq_self_eq_true w), deleteFirst_append_left _ hfresh,
    deleteFirst_cons_pos _ (by simp)]
  exact List.append_nil like

/-- Sequencing helper: `like(v,u,w1); like(v,u,w2)` as the spec's back-to-back
calls; the second call runs on the state produced by the first. -/
def twoLikes (s : DB) (vid : String) (w1 w2 : Int) (uid nid1 nid2 : String)
    (now1 now2 : Nat) : Except Err (DB × LikeResp) :=
  match like_video s vid w1 uid nid1 now1 with
  | .error e => .error e
  | .ok (s₁, _) => like_video s₁ vid w2 uid nid2 now2

/-- Sequencing helper: subscribe twice in a row. -/
def twoSubscribes (s : DB) (ch uid nid1 nid2 : String) (now1 now2 : Nat) :
    Except Err (DB × SubResp) :=
  match subscribe_channel s ch uid nid1 now1 with
  | .error e => .error e
  | .ok (s₁, _) => subscribe_channel s₁ ch uid nid2 now2

theorem user_find_after_count_update (s : List UserDoc) (ch : String) (cu : UserDoc)
    (c : Nat) (hch : s.find? (fun x => x.oid == ch) = some cu) :
    (updateFirst (fun x => x.oid == ch) (fun x => { x with subscriber_count := c }) s).find?
        (fun x => x.oid == ch) = some { cu with subscriber_count := c } := by
  rw [find?_updateFirst_pres (fun x : UserDoc => x.oid == ch)
    (fun x : UserDoc => { x with subscriber_count := c }) (fun x hx => hx), hch]
  rfl

/-- C5: subscribing then subscribing again (the subscriber starts
unsubscribed) is a pure toggle: the subscription table returns to its
original contents — in particular the subscriber has no row afterwards —
and both the returned and the persisted `subscriber_count` are back at the
channel's value from before the pair. -/
theorem subscribe_twice_toggle (s : DB) (ch uid nid1 nid2 : String)
    (now1 now2 : Nat) (cu : UserDoc)
    (hne : (ch == uid) = false)
    (hvalid : validObjectId ch = true)
    (hch : s.user.find? (fun x => x.oid == ch) = some cu)
    (hnosub : s.subscription.countP (subMatches ch uid) = 0)
    (hfresh : ∀ r ∈ s.subscription, (r.oid == nid1) = false)
    (hcnt : cu.subscriber_count = s.subscription.countP (subCounts ch)) :
    twoSubscribes s ch uid nid1 nid2 now1 now2 =
      .ok ({ s with user := updateFirst (fun x => x.oid == ch) (fun x => { x with subscriber_count := cu.subscriber_count }) (updateFirst (fun x => x.oid == ch) (fun x => { x with subscriber_count := cu.subscriber_count + 1 }) s.user) },
        ⟨ch, cu.subscriber_count⟩) := by
  have hfind1 : s.subscription.find? (subMatches ch uid) = none :=
    List.find?_eq_none.mpr (List.countP_eq_zero.mp hnosub)
  have hclean : ∀ x ∈ s.subscription, subMatches ch uid x = false :=
    fun x hx => bool_eq_false (List.countP_eq_zero.mp hnosub x hx)
  have hT1 := subTable_insert nid1 now1 hfind1
  have h1 := subscribe_channel_ok s ch uid nid1 now1 hne hvalid (by rw [hch]; rfl)
  have hc1 : (s.subscription ++ [(⟨nid1, ch, uid, now1⟩ : SubscriptionDoc)]).countP
      (subCounts ch) = cu.subscriber_count + 1 := by
    rw [List.countP_append, ← hcnt]
    simp [subCounts]
  rw [twoSubscribes, h1]
  dsimp only
  rw [hT1, hc1]
  have h2 := subscribe_channel_ok
    ({ s with subscription := s.subscription ++ [⟨nid1, ch, uid, now1⟩], user := updateFirst (fun x => x.oid == ch) (fun x => { x with subscriber_count := cu.subscriber_count + 1 }) s.user })
    ch uid nid2 now2 hne hvalid
    (by dsimp only; rw [user_find_after_count_update s.user ch cu _ hch]; rfl)
  rw [h2]
  dsimp only
  rw [subTable_delete_appended nid1 now1 nid2 now2 hclean hfresh, ← hcnt]

/-- C5 witness: bob subscribes to alice twice from `baseDB`; the pair ends
with no subscription row and alice's count back at 0. -/
theorem subscribe_twice_toggle_witness :
    twoSubscribes baseDB uidA uidB oidD oidE 3 4 =
      .ok ({ baseDB with user := updateFirst (fun x => x.oid == uidA) (fun x => { x with subscriber_count := userA.subscriber_count }) (updateFirst (fun x => x.oid == uidA) (fun x => { x with subscriber_count := userA.subscriber_count + 1 }) baseDB.user) },
        ⟨uidA, userA.subscriber_count⟩) :=
  subscribe_twice_toggle baseDB uidA uidB oidD oidE 3 4 userA (by decide) (by decide)
    (by decide) (by decide) (by decide) (by decide)

theorem likeTable_update_decomp (l₁ l₂ : List LikeDoc) (r : LikeDoc)
    (vid uid : String) (w : Int) (nid : String) (now : Nat)
    (hclean : ∀ x ∈ l₁, likeMatches vid uid x = false)
    (hpair : likeMatches vid uid r = true)
    (hval : (r.value == w) = false)
    (hids : ((l₁ ++ r :: l₂).map (fun l => l.oid)).Nodup) :
    likeTable (l₁ ++ r :: l₂) vid w uid nid now = l₁ ++ { r with value := w } :: l₂ := by
  rw [likeTable, find?_append_clean _ hclean, List.find?_cons_of_pos _ hpair]
  dsimp only
  rw [if_neg (by simp [hval])]
  have hoid : ∀ x ∈ l₁, (x.oid == r.oid) = false :=
    fun x hx => beq_eq_false_iff_ne.mpr (map_nodup_left_ne hids x hx)
  rw [updateFirst_append_left _ hoid, updateFirst_cons_pos _ (by simp)]

theorem likeTable_delete_decomp (l₁ l₂ : List LikeDoc) (r : LikeDoc)
    (vid uid : String) (w : Int) (nid : String) (now : Nat)
    (hclean : ∀ x ∈ l₁, likeMatches vid uid x = false)
    (hpair : likeMatches vid uid r = true)
    (hval : (r.value == w) = true)
    (hids : ((l₁ ++ r :: l₂).map (fun l => l.oid)).Nodup) :
    likeTable (l₁ ++ r :: l₂) vid w uid nid now = l₁ ++ l₂ := by
  rw [likeTable, find?_append_clean _ hclean, List.find?_cons_of_pos _ hpair]
  dsimp only
  rw [if_pos hval]
  have hoid : ∀ x ∈ l₁, (x.oid == r.oid) = false :=
    fun x hx => beq_eq_false_iff_ne.mpr (map_nodup_left_ne hids x hx)
  rw [deleteFirst_append_left _ hoid, deleteFirst_cons_pos _ (by simp)]

/-- C6: when the pair's unique Like row carries a different value, `setLike`
rewrites that row in place: afterwards exactly one row exists for the pair,
it carries the new value, and the recomputed `likes_count` counts the new
value instead of the old one. -/
theorem like_update_in_place (s : DB) (vid uid nid : String) (w : Int) (now : Nat)
    (r : LikeDoc)
    (hvalid : validObjectId vid = true)
    (hvid : (s.video.find? (fun v => v.oid == vid)).isNone = false)
    (hr : s.like.find? (likeMatches vid uid) = some r)
    (hw : (r.value == w) = false)
    (hone : s.like.countP (likeMatches vid uid) = 1)
    (hids : (s.like.map (fun l => l.oid)).Nodup) :
    ∃ s' resp, like_video s vid w uid nid now = .ok (s', resp) ∧
      s'.like.countP (likeMatches vid uid) = 1 ∧
      s'.like.countP (fun l => likeMatches vid uid l && l.value == w) = 1 ∧
      s'.like.find? (likeMatches vid uid) = some { r with value := w } ∧
      resp.likes_count + (if r.value = 1 then 1 else 0) =
        s.like.countP (likeCounts vid) + (if w = 1 then 1 else 0) := by
  obtain ⟨hpair, l₁, l₂, hl, hclean⟩ := find?_decomp hr
  have hids' : ((l₁ ++ r :: l₂).map (fun l => l.oid)).Nodup := by
    rw [← hl]; exact hids
  have hT := likeTable_update_decomp l₁ l₂ r vid uid w nid now hclean hpair hw hids'
  have h1 := like_video_ok s vid w uid nid now hvalid hvid
  rw [hl, hT] at h1
  have hpair' : likeMatches vid uid { r with value := w } = true := hpair
  have hcl₁ : l₁.countP (likeMatches vid uid) = 0 :=
    List.countP_eq_zero.mpr (fun x hx h => Bool.false_ne_true ((hclean x hx).symm.trans h))
  have hone' := hone
  rw [hl, List.countP_append, List.countP_cons, hcl₁] at hone'
  simp only [hpair, if_true] at hone'
  have hcl₂ : l₂.countP (likeMatches vid uid) = 0 := by omega
  have hl₂false : ∀ x ∈ l₂, likeMatches vid uid x = false :=
    fun x hx => bool_eq_false (List.countP_eq_zero.mp hcl₂ x hx)
  have hvidr : (r.video_id == vid) = true := by
    have hp := hpair
    simp only [likeMatches, Bool.and_eq_true] at hp
    exact hp.1
  refine ⟨_, _, h1, ?_, ?_, ?_, ?_⟩
  · dsimp only
    simp [List.countP_append, List.countP_cons, hcl₁, hcl₂, hpair']
  · dsimp only
    have e₁ : l₁.countP (fun l => likeMatches vid uid l && l.value == w) = 0 :=
      List.countP_eq_zero.mpr (fun x hx h => by
        rw [hclean x hx] at h
        exact Bool.false_ne_true (Bool.false_and _ ▸ h))
    have e₂ : l₂.countP (fun l => likeMatches vid uid l && l.value == w) = 0 :=
      List.countP_eq_zero.mpr (fun x hx h => by
        rw [hl₂false x hx] at h
        exact Bool.false_ne_true (Bool.false_and _ ▸ h))
    simp [List.countP_append, List.countP_cons, e₁, e₂, hpair']
  · dsimp only
    rw [find?_append_clean _ hclean, List.find?_cons_of_pos _ hpair']
  · dsimp only
    rw [hl, List.countP_append, List.countP_append, List.countP_cons, List.countP_cons]
    have hLCr' : likeCounts vid { r with value := w } = (w == 1) := by
      simp [likeCounts, hvidr]
    have hLCr : likeCounts vid r = (r.value == 1) := by
      simp [likeCounts, hvidr]
    rw [hLCr, hLCr']
    by_cases hw1 : w = 1
    · by_cases hr1 : r.value = 1
      · rw [hw1, hr1] at hw
        simp at hw
      · simp [hw1, hr1, beq_eq_false_iff_ne.mpr hr1]
        omega
    · by_cases hr1 : r.value = 1
      · simp [hw1, hr1, beq_eq_false_iff_ne.mpr hw1]
        omega
      · simp [hw1, hr1, beq_eq_false_iff_ne.mpr hw1, beq_eq_false_iff_ne.mpr hr1]

/-- The store after bob's like on alice's video is flipped to a dislike. -/
def dislikedDB : DB :=
  { baseDB with
    like := [⟨oidD, vidC, uidB, -1, 3⟩],
    video := [{ videoC with likes_count := 0 }] }

/-- C6 witness: flipping bob's like (value 1) to value -1 rewrites the
single row in place and drops `likes_count` from 1 to 0. -/
theorem like_update_in_place_witness :
    like_video likedDB vidC (-1) uidB oidE 4 = .ok (dislikedDB, ⟨vidC, 0⟩) ∧
    dislikedDB.like.countP (likeMatches vidC uidB) = 1 ∧
    dislikedDB.like.find? (likeMatches vidC uidB) = some ⟨oidD, vidC, uidB, -1, 3⟩ ∧
    (0 : Nat) + (if (1 : Int) = 1 then 1 else 0) =
      likedDB.like.countP (likeCounts vidC) + (if (-1 : Int) = 1 then 1 else 0) := by
  obtain ⟨s', resp, h1, h2, h3, h4, h5⟩ :=
    like_update_in_place likedDB vidC uidB oidE (-1) 4 ⟨oidD, vidC, uidB, 1, 3⟩
      (by decide) (by decide) (by decide) (by decide) (by decide) (by decide)
  have hconc : like_video likedDB vidC (-1) uidB oidE 4 = .ok (dislikedDB, ⟨vidC, 0⟩) := by
    decide
  have hp := Except.ok.inj (h1.symm.trans hconc)
  have hs : s' = dislikedDB := congrArg Prod.fst hp
  have hresp : resp = ⟨vidC, 0⟩ := congrArg Prod.snd hp
  subst hs
  subst hresp
  exact ⟨hconc, h2, h4, h5⟩

theorem video_find_after_count_update (videos : List VideoDoc) (vid : String)
    (v : VideoDoc) (c : Nat) (hv : videos.find? (fun x => x.oid == vid) = some v) :
    (updateFirst (fun x => x.oid == vid) (fun x => { x with likes_count := c }) videos).find?
        (fun x => x.oid == vid) = some { v with likes_count := c } := by
  rw [find?_updateFirst_pres (fun x : VideoDoc => x.oid == vid)
    (fun x : VideoDoc => { x with likes_count := c }) (fun x hx => hx), hv]
  rfl

theorem video_count_after_two_updates (videos : List VideoDoc) (vid : String)
    (v : VideoDoc) (c₁ c₂ : Nat) (hv : videos.find? (fun x => x.oid == vid) = some v) :
    ((updateFirst (fun x => x.oid == vid) (fun x => { x with likes_count := c₂ }) (updateFirst (fun x => x.oid == vid) (fun x => { x with likes_count := c₁ }) videos)).find?
        (fun x => x.oid == vid)).map (fun x => x.likes_count) = some c₂ := by
  rw [find?_updateFirst_pres (fun x : VideoDoc => x.oid == vid)
    (fun x : VideoDoc => { x with likes_count := c₂ }) (fun x hx => hx),
    video_find_after_count_update videos vid v c₁ hv]
  rfl

/-- C3 counterexample: starting from a state in which the pair already has a
Like row with value 1, `like(v,u,1); like(v,u,1)` does not end with the pair
having no Like row: the first call deletes the row and the second call
re-inserts one.  This refutes the claim's "starting from any state". -/
theorem like_same_twice_any_state_fails :
    ¬ (∀ (s : DB) (vid uid nid1 nid2 : String) (now1 now2 : Nat) (v : VideoDoc),
        validObjectId vid = true →
        s.video.find? (fun x => x.oid == vid) = some v →
        (s.user.find? (fun x => x.oid == uid)).isSome = true →
        ∀ s₂ r₂, twoLikes s vid 1 1 uid nid1 nid2 now1 now2 = .ok (s₂, r₂) →
          s₂.like.countP (likeMatches vid uid) = 0) := by
  intro h
  have h0 := h likedDB vidC uidB oidE oidF 4 5 { videoC with likes_count := 1 }
    (by decide) (by decide) (by decide)
    ({ baseDB with like := [⟨oidF, vidC, uidB, 1, 5⟩], video := [{ videoC with likes_count := 1 }] })
    ⟨vidC, 1⟩ (by decide)
  exact absurd h0 (by decide)

/-- C3 amended: for an existing video and valid user, if the pair's Like row
(if any) does not have value 1, and the store satisfies the data-model
invariants (at most one Like row per pair, distinct row ids, a fresh
generated id, `likes_count` equal to the fresh count), then
`like(v,u,1); like(v,u,1)` leaves no Like row for the pair and brings both
the returned and the persisted `likes_count` back to the value before the
pair. -/
theorem like_same_twice_toggle (s : DB) (vid uid nid1 nid2 : String)
    (now1 now2 : Nat) (v : VideoDoc)
    (hvalid : validObjectId vid = true)
    (hv : s.video.find? (fun x => x.oid == vid) = some v)
    (huser : (s.user.find? (fun x => x.oid == uid)).isSome = true)
    (hatmost : s.like.countP (likeMatches vid uid) ≤ 1)
    (hno1 : s.like.countP (fun l => likeMatches vid uid l && l.value == 1) = 0)
    (hids : (s.like.map (fun l => l.oid)).Nodup)
    (hfresh : ∀ l ∈ s.like, (l.oid == nid1) = false)
    (hcnt : v.likes_count = s.like.countP (likeCounts vid)) :
    ∃ s₂ r₂, twoLikes s vid 1 1 uid nid1 nid2 now1 now2 = .ok (s₂, r₂) ∧
      s₂.like.countP (likeMatches vid uid) = 0 ∧
      r₂.likes_count = v.likes_count ∧
      (s₂.video.find? (fun x => x.oid == vid)).map (fun x => x.likes_count) =
        some v.likes_count := by
  have hvid1 : (s.video.find? (fun x => x.oid == vid)).isNone = false := by
    rw [hv]; rfl
  have h1 := like_video_ok s vid 1 uid nid1 now1 hvalid hvid1
  cases hfind : s.like.find? (likeMatches vid uid) with
  | none =>
    have hclean : ∀ x ∈ s.like, likeMatches vid uid x = false :=
      fun x hx => bool_eq_false (List.find?_eq_none.mp hfind x hx)
    have hT1 := likeTable_insert 1 nid1 now1 hfind
    rw [hT1] at h1
    have hvid2 : ((updateFirst (fun x => x.oid == vid) (fun x => { x with likes_count := List.countP (likeCounts vid) (s.like ++ [⟨nid1, vid, uid, 1, now1⟩]) }) s.video).find?
        (fun x => x.oid == vid)).isNone = false := by
      rw [video_find_after_count_update s.video vid v _ hv]
      rfl
    have h2 := like_video_ok
      ({ s with like := s.like ++ [⟨nid1, vid, uid, 1, now1⟩], video := updateFirst (fun x => x.oid == vid) (fun x => { x with likes_count := List.countP (likeCounts vid) (s.like ++ [⟨nid1, vid, uid, 1, now1⟩]) }) s.video })
      vid 1 uid nid2 now2 hvalid hvid2
    have h12 : twoLikes s vid 1 1 uid nid1 nid2 now1 now2 =
        like_video ({ s with like := s.like ++ [⟨nid1, vid, uid, 1, now1⟩], video := updateFirst (fun x => x.oid == vid) (fun x => { x with likes_count := List.countP (likeCounts vid) (s.like ++ [⟨nid1, vid, uid, 1, now1⟩]) }) s.video })
          vid 1 uid nid2 now2 := by
      rw [twoLikes, h1]
    rw [h2] at h12
    dsimp only at h12
    have hT2 : likeTable (s.like ++ [⟨nid1, vid, uid, 1, now1⟩]) vid 1 uid nid2 now2 = s.like :=
      likeTable_delete_appended 1 nid1 now1 nid2 now2 hclean hfresh
    rw [hT2, ← hcnt] at h12
    refine ⟨_, _, h12, ?_, rfl, ?_⟩
    · dsimp only
      exact List.countP_eq_zero.mpr
        (fun x hx hpx => Bool.false_ne_true ((hclean x hx).symm.trans hpx))
    · dsimp only
      exact video_count_after_two_updates s.video vid v _ _ hv
  | some r =>
    obtain ⟨hpair, l₁, l₂, hl, hclean⟩ := find?_decomp hfind
    have hids' : ((l₁ ++ r :: l₂).map (fun l => l.oid)).Nodup := by
      rw [← hl]; exact hids
    have hvidr : (r.video_id == vid) = true := by
      have hp := hpair
      simp only [likeMatches, Bool.and_eq_true] at hp
      exact hp.1
    have hr1 : (r.value == 1) = false := by
      have hm : r ∈ s.like := by
        rw [hl]; exact List.mem_append_right _ (List.mem_cons_self _ _)
      have hq := bool_eq_false (List.countP_eq_zero.mp hno1 r hm)
      rw [hpair, Bool.true_and] at hq
      exact hq
    have hT1 := likeTable_update_decomp l₁ l₂ r vid uid 1 nid1 now1 hclean hpair hr1 hids'
    rw [hl, hT1] at h1
    have hcl₁ : l₁.countP (likeMatches vid uid) = 0 :=
      List.countP_eq_zero.mpr
        (fun x hx hpx => Bool.false_ne_true ((hclean x hx).symm.trans hpx))
    have hatmost' := hatmost
    rw [hl, List.countP_append, List.countP_cons, hcl₁] at hatmost'
    simp only [hpair, if_true] at hatmost'
    have hcl₂ : l₂.countP (likeMatches vid uid) = 0 := by omega
    have hpair' : likeMatches vid uid { r with value := (1 : Int) } = true := hpair
    have hids2 : ((l₁ ++ { r with value := (1 : Int) } :: l₂).map (fun l => l.oid)).Nodup := by
      have hmaps : (l₁ ++ { r with value := (1 : Int) } :: l₂).map (fun l => l.oid) =
          (l₁ ++ r :: l₂).map (fun l => l.oid) := by
        simp
      rw [hmaps]
      exact hids'
    have hT2 := likeTable_delete_decomp l₁ l₂ ({ r with value := (1 : Int) }) vid uid 1
      nid2 now2 hclean hpair' rfl hids2
    have hvid2 : ((updateFirst (fun x => x.oid == vid) (fun x => { x with likes_count := List.countP (likeCounts vid) (l₁ ++ { r with value := (1 : Int) } :: l₂) }) s.video).find?
        (fun x => x.oid == vid)).isNone = false := by
      rw [video_find_after_count_update s.video vid v _ hv]
      rfl
    have h2 := like_video_ok
      ({ s with like := l₁ ++ { r with value := (1 : Int) } :: l₂, video := updateFirst (fun x => x.oid == vid) (fun x => { x with likes_count := List.countP (likeCounts vid) (l₁ ++ { r with value := (1 : Int) } :: l₂) }) s.video })
      vid 1 uid nid2 now2 hvalid hvid2
    have h12 : twoLikes s vid 1 1 uid nid1 nid2 now1 now2 =
        like_video ({ s with like := l₁ ++ { r with value := (1 : Int) } :: l₂, video := updateFirst (fun x => x.oid == vid) (fun x => { x with likes_count := List.countP (likeCounts vid) (l₁ ++ { r with value := (1 : Int) } :: l₂) }) s.video })
          vid 1 uid nid2 now2 := by
      rw [twoLikes, h1]
    rw [h2] at h12
    dsimp only at h12
    rw [hT2] at h12
    have hLCr : likeCounts vid r = false := by
      simp [likeCounts, hvidr, hr1]
    have hc : List.countP (likeCounts vid) (l₁ ++ l₂) = v.likes_count := by
      rw [hcnt, hl, List.countP_append, List.countP_append, List.countP_cons, hLCr]
      simp
    rw [hc] at h12
    refine ⟨_, _, h12, ?_, rfl, ?_⟩
    · dsimp only
      rw [List.countP_append, hcl₁, hcl₂]
    · dsimp only
      exact video_count_after_two_updates s.video vid v _ _ hv

/-- C3 witness: from the state where bob's row for alice's video has value
-1 (so no value-1 row), liking twice with value 1 ends with no Like row for
the pair and `likes_count` back at 0. -/
theorem like_same_twice_toggle_witness :
    twoLikes dislikedDB vidC 1 1 uidB oidE oidF 5 6 =
      .ok ({ baseDB with like := [], video := [{ videoC with likes_count := 0 }] }, ⟨vidC, 0⟩) ∧
    ({ baseDB with like := ([] : List LikeDoc), video := [{ videoC with likes_count := 0 }] } : DB).like.countP
      (likeMatches vidC uidB) = 0 := by
  obtain ⟨s₂, r₂, h1, h2, h3, h4⟩ :=
    like_same_twice_toggle dislikedDB vidC uidB oidE oidF 5 6 { videoC with likes_count := 0 }
      (by decide) (by decide) (by decide) (by decide) (by decide) (by decide)
      (by decide) (by decide)
  have hconc : twoLikes dislikedDB vidC 1 1 uidB oidE oidF 5 6 =
      .ok ({ baseDB with like := [], video := [{ videoC with likes_count := 0 }] }, ⟨vidC, 0⟩) := by
    decide
  have hp := Except.ok.inj (h1.symm.trans hconc)
  have hs : s₂ = { baseDB with like := [], video := [{ videoC with likes_count := 0 }] } :=
    congrArg Prod.fst hp
  subst hs
  exact ⟨hconc, h2⟩

/-- Two users, alice's video, and bob's comment on it. -/
def commentDB : DB := { baseDB with comment := [⟨oidE, vidC, uidB, "nice", 4⟩] }

/-- C1 (failing): the video-detail `channel` embed, the comment-list `user`
embed, and the channel-profile body are all produced by `to_str_id` on the
raw user document, which keeps the `password_hash` key — only register and
login pop it.  At a concrete state each of the three responses carries the
owner's bcrypt hash. -/
theorem password_hash_exposed :
    (get_video commentDB vidC 9).2 =
      .ok ⟨to_str_id_video { videoC with views_count := 1, updated_at := 9 },
        some (to_str_id_user userA)⟩ ∧
    list_comments commentDB vidC 50 =
      .ok [⟨to_str_id_comment ⟨oidE, vidC, uidB, "nice", 4⟩, some (to_str_id_user userB)⟩] ∧
    get_channel commentDB uidA =
      .ok ⟨{ to_str_id_user userA with subscriber_count := 0 }, [to_str_id_video videoC]⟩ ∧
    (to_str_id_user userA).password_hash = some "bcrypt-hash-a" ∧
    (to_str_id_user userB).password_hash = some "bcrypt-hash-b" :=
  ⟨by decide, by decide, by decide, rfl, rfl⟩

end VideoBackend
